import Mathlib

/-!
Verification of the Cosentyx OCR extractor's prescription pipeline.

This file shallowly embeds the checkbox-combination detection engine of
`src/extraction/prescription_extractor.py`, the routing state machine of
`src/models/extraction_result.py`, the prescription data model of
`src/models/prescription.py`, and the classifier error handling of
`src/classification/bedrock_classifier.py`.

Modelling conventions:
- Python strings are Lean `String`s; the Python string operations used by the
  source (`in`, `.lower()`, `.find()`, slicing, `.title()`, ...) are
  re-implemented below over `List Char` with structural recursion so that all
  definitions evaluate inside the kernel.
- Textract bounding-box coordinates are floats in `[0,1]` in the source; they
  are modelled exactly as integers in thousandths of the page dimension
  (so the source's tolerance `0.03` is `30`, `0.35` is `350`, and so on).
- Confidence scores (`0.95`, `1.0`, ...) are modelled in hundredths.
- Python's stable ascending `list.sort(key=...)` is modelled by a stable
  insertion sort `sortByKey`.
- Fallible lookups (`dict.get` chains) become `Option`.
-/

set_option maxRecDepth 20000

/-! ## String utilities (models of the Python string operations used) -/

/-- Lower-case an ASCII letter, as Python `str.lower` does on the ASCII range
(the only characters the source's keyword lists rely on). -/
def charLower (c : Char) : Char :=
  if 65 ≤ c.toNat ∧ c.toNat ≤ 90 then Char.ofNat (c.toNat + 32) else c

/-- Upper-case an ASCII letter, as Python `str.upper` does on the ASCII range. -/
def charUpper (c : Char) : Char :=
  if 97 ≤ c.toNat ∧ c.toNat ≤ 122 then Char.ofNat (c.toNat - 32) else c

/-- Python `str.lower()`. -/
def sLower (s : String) : String := String.mk (s.toList.map charLower)

/-- Python `str.upper()`. -/
def sUpper (s : String) : String := String.mk (s.toList.map charUpper)

/-- Is `c` an ASCII letter? (used for Python `str.title` word boundaries). -/
def charIsAlpha (c : Char) : Bool :=
  (65 ≤ c.toNat ∧ c.toNat ≤ 90) ∨ (97 ≤ c.toNat ∧ c.toNat ≤ 122)

/-- Helper for `sTitle`: `prev` records whether the previous char was a letter. -/
def titleChars (prev : Bool) : List Char → List Char
  | [] => []
  | c :: t =>
    (if charIsAlpha c then (if prev then charLower c else charUpper c) else c)
      :: titleChars (charIsAlpha c) t

/-- Python `str.title()`: first letter of each word upper-cased, the rest lowered. -/
def sTitle (s : String) : String := String.mk (titleChars false s.toList)

/-- Python `str.capitalize()`: first char upper-cased, the rest lowered. -/
def sCapitalize (s : String) : String :=
  match s.toList with
  | [] => ""
  | c :: t => String.mk (charUpper c :: t.map charLower)

/-- Does `needle` occur as a contiguous infix of `hay`? -/
def listInfix (needle hay : List Char) : Bool :=
  match hay with
  | [] => needle.isEmpty
  | _ :: t => needle.isPrefixOf hay || listInfix needle t

/-- Python `needle in hay` on strings. -/
def sContains (hay needle : String) : Bool := listInfix needle.toList hay.toList

/-- Index (in characters) of the first occurrence of `needle` in `hay`. -/
def listFind? (needle hay : List Char) : Option Nat :=
  match hay with
  | [] => if needle.isEmpty then some 0 else none
  | _ :: t =>
    if needle.isPrefixOf hay then some 0
    else (listFind? needle t).map (· + 1)

/-- Python `hay.find(needle)`, `none` standing for `-1`. -/
def sFind? (hay needle : String) : Option Nat := listFind? needle.toList hay.toList

/-- Python character slice `s[a:b]` (indices already clamped at 0). -/
def sSlice (s : String) (a b : Nat) : String :=
  String.mk ((s.toList.drop a).take (b - a))

/-- Python `s[:n]`. -/
def sTake (s : String) (n : Nat) : String := String.mk (s.toList.take n)

/-- Python `sep.join(xs)`. -/
def sJoin (sep : String) : List String → String
  | [] => ""
  | [x] => x
  | x :: rest => x ++ sep ++ sJoin sep rest

/-- Python `s.split(c)` for a single-character separator. -/
def sSplitChar (c : Char) (s : String) : List String :=
  (s.toList.splitOn c).map String.mk

/-- Python `s.replace("_", " ")` (single-character pattern, so a plain map). -/
def sReplaceUnderscore (s : String) : String :=
  String.mk (s.toList.map fun c => if c = '_' then ' ' else c)

/-- Absolute value on `ℤ`, kept as a plain definition so everything reduces. -/
def zabs (x : ℤ) : ℤ := if x < 0 then -x else x

/-! ## Stable sort by integer key (model of Python `list.sort(key=...)`) -/

/-- Insert `x` into `l` before the first element with a strictly larger key;
this is the stable insertion matching Python's stable ascending sort. -/
def insertByKey (key : α → ℤ) (x : α) : List α → List α
  | [] => [x]
  | y :: ys => if key x ≤ key y then x :: y :: ys else y :: insertByKey key x ys

/-- Stable ascending sort by an integer key. -/
def sortByKey (key : α → ℤ) : List α → List α
  | [] => []
  | x :: xs => insertByKey key x (sortByKey key xs)

theorem insertByKey_perm (key : α → ℤ) (x : α) (l : List α) :
    (insertByKey key x l).Perm (x :: l) := by
  induction l with
  | nil => simp [insertByKey]
  | cons y ys ih =>
    simp only [insertByKey]
    split
    · exact List.Perm.refl _
    · exact ((ih.cons y).trans (List.Perm.swap x y ys))

theorem sortByKey_perm (key : α → ℤ) (l : List α) :
    (sortByKey key l).Perm l := by
  induction l with
  | nil => simp [sortByKey]
  | cons x xs ih =>
    simpa [sortByKey] using (insertByKey_perm key x (sortByKey key xs)).trans (ih.cons x)

theorem mem_sortByKey (key : α → ℤ) (l : List α) (a : α) :
    a ∈ sortByKey key l ↔ a ∈ l :=
  (sortByKey_perm key l).mem_iff

theorem insertByKey_sorted (key : α → ℤ) (x : α) (l : List α)
    (h : l.Pairwise (fun a b => key a ≤ key b)) :
    (insertByKey key x l).Pairwise (fun a b => key a ≤ key b) := by
  induction l with
  | nil => simp [insertByKey]
  | cons y ys ih =>
    simp only [insertByKey]
    split
    · constructor
      · intro b hb
        rcases List.mem_cons.mp hb with rfl | hb
        · assumption
        · exact le_trans (by assumption) (List.rel_of_pairwise_cons h hb)
      · exact h
    · have hy : ∀ b ∈ insertByKey key x ys, key y ≤ key b := by
        intro b hb
        rcases List.mem_cons.mp ((insertByKey_perm key x ys).mem_iff.mp hb) with rfl | hb
        · omega
        · exact List.rel_of_pairwise_cons h hb
      exact List.Pairwise.cons hy (ih h.of_cons)

theorem sortByKey_sorted (key : α → ℤ) (l : List α) :
    (sortByKey key l).Pairwise (fun a b => key a ≤ key b) := by
  induction l with
  | nil => simp [sortByKey]
  | cons x xs ih => exact insertByKey_sorted key x _ ih

/-! ## Models of the regular expressions used by the source

Each matcher replicates the behaviour of the specific `re.search` call on the
inputs the source feeds it (lower-cased text); `search` scans for the leftmost
matching position, as `re.search` does. -/

/-- Leading run of ASCII digits. -/
def takeDigits : List Char → List Char × List Char
  | [] => ([], [])
  | c :: t =>
    if c.isDigit then
      let (d, r) := takeDigits t
      (c :: d, r)
    else ([], c :: t)

/-- Drop a leading run of whitespace (Python `\s*`). -/
def skipSpaces : List Char → List Char
  | [] => []
  | c :: t => if c.isWhitespace then skipSpaces t else c :: t

/-- Consume a literal, or fail. -/
def eatLit (lit : List Char) (cs : List Char) : Option (List Char) :=
  if lit.isPrefixOf cs then some (cs.drop lit.length) else none

/-- Consume an optional single character (greedy, like `s?` / `,?` here,
where greediness cannot change the overall match). -/
def eatOpt (c : Char) : List Char → List Char
  | [] => []
  | d :: t => if d = c then t else d :: t

/-- Scan for the leftmost position at which `f` matches (Python `re.search`). -/
def reSearch (f : List Char → Option β) : List Char → Option β
  | [] => f []
  | c :: t =>
    match f (c :: t) with
    | some r => some r
    | none => reSearch f t

/-- Match `12\s*refills?,?\s*or\s*(\d+)\s*refills?` at the head of `cs`,
returning the captured digit string. -/
def match12Refills (cs : List Char) : Option (List Char) := do
  let cs ← eatLit "12".toList cs
  let cs := skipSpaces cs
  let cs ← eatLit "refill".toList cs
  let cs := eatOpt 's' cs
  let cs := eatOpt ',' cs
  let cs := skipSpaces cs
  let cs ← eatLit "or".toList cs
  let cs := skipSpaces cs
  let (d, cs) := takeDigits cs
  if d.isEmpty then none else do
  let cs := skipSpaces cs
  let _ ← eatLit "refill".toList cs
  pure d

/-- Model of `re.search(r'12\s*refills?,?\s*or\s*(\d+)\s*refills?', row_text)`. -/
def search12Refills (s : String) : Option String :=
  (reSearch match12Refills s.toList).map String.mk

/-- Match `12\s*or\s*(\d+)` at the head of `cs`. -/
def match12Or (cs : List Char) : Option (List Char) := do
  let cs ← eatLit "12".toList cs
  let cs := skipSpaces cs
  let cs ← eatLit "or".toList cs
  let cs := skipSpaces cs
  let (d, _) := takeDigits cs
  if d.isEmpty then none else pure d

/-- Model of `re.search(r'12\s*or\s*(\d+)', text, re.IGNORECASE)` (applied to text that
the caller lower-cases, so case-insensitivity is the identity here). -/
def search12Or (s : String) : Option String :=
  (reSearch match12Or s.toList).map String.mk

/-- Match `(\d+)\s*refills?` at the head of `cs`. -/
def matchNumRefills (cs : List Char) : Option (List Char) := do
  let (d, cs) := takeDigits cs
  if d.isEmpty then none else do
  let cs := skipSpaces cs
  let _ ← eatLit "refill".toList cs
  pure d

/-- Model of `re.search(r'(\d+)\s*refills?', text, re.IGNORECASE)` on lower-cased text. -/
def searchNumRefills (s : String) : Option String :=
  (reSearch matchNumRefills s.toList).map String.mk

/-- Match `\((?:(\d+)x)?(\d+)\s*mg` at the head of `cs`: an opening
parenthesis, an optional `<digits>x` multiplier, digits, then `mg`.
Returns `(multiplier?, dose)`. -/
def matchParenDose (cs : List Char) : Option (Option (List Char) × List Char) := do
  let cs ← eatLit "(".toList cs
  let (d1, r1) := takeDigits cs
  if d1.isEmpty then none else
  match r1 with
  | 'x' :: r2 =>
    let (d2, r3) := takeDigits r2
    if d2.isEmpty then
      none
    else
      match eatLit "mg".toList (skipSpaces r3) with
      | some _ => some (some d1, d2)
      | none => none
  | _ =>
    match eatLit "mg".toList (skipSpaces r1) with
    | some _ => some (none, d1)
    | none => none

/-- Model of `re.search(r'\((?:(\d+)x)?(\d+)\s*mg', text, re.IGNORECASE)` on
lower-cased text. -/
def searchParenDose (s : String) : Option (Option String × String) :=
  (reSearch matchParenDose s.toList).map fun (m, d) => (m.map String.mk, String.mk d)

/-! ## Document layout data model -/

/-- One Textract block, as consumed by `_detect_from_checkboxes`: only the
fields the source reads (`Id`, `BlockType`, `Page`, bounding-box `Top` and
`Left`, `Text`). Coordinates are in thousandths of the page dimension. -/
structure Block where
  id : String
  blockType : String
  page : ℤ
  top : ℤ
  left : ℤ
  text : String
deriving DecidableEq

/-- One entry of the source's `nearby_text_blocks` / `same_row_text_blocks`
lists: `{"text": ..., "distance": horizontal_distance, "left": ...}`. -/
structure NearbyText where
  text : String
  distance : ℤ
  left : ℤ
deriving DecidableEq

/-- Model of `block_lookup = {block["Id"]: block for block in blocks}` followed by
`block_lookup.get(checkbox_id)`: for duplicate ids the last block wins. -/
def blockLookup (blocks : List Block) (cbId : String) : Option Block :=
  blocks.reverse.find? (fun b => b.id = cbId)

/-- The spatial proximity resolver (lines 469–508 of
`prescription_extractor.py`): collect the same-page LINE blocks within a
vertical tolerance of 30 (0.03) for the nearby view and 20 (0.02) for the
same-row view, recording for each the text, the horizontal distance to the
checkbox and the block's left coordinate, then sort both views by ascending
recorded distance (Python's stable sort). -/
def collectNearby (blocks : List Block) (page top left : ℤ) :
    List NearbyText × List NearbyText :=
  let lineBlocks := blocks.filter fun b => b.blockType = "LINE" ∧ b.page = page
  let nearby := (lineBlocks.filter fun b => zabs (b.top - top) < 30).map
    fun b => NearbyText.mk b.text (zabs (b.left - left)) b.left
  let sameRow := (lineBlocks.filter fun b => zabs (b.top - top) < 20).map
    fun b => NearbyText.mk b.text (zabs (b.left - left)) b.left
  (sortByKey (·.distance) nearby, sortByKey (·.distance) sameRow)

/-! ## Checkbox classifier (lines 510–825 of `prescription_extractor.py`) -/

/-- Prescription-related keywords (line 532): a checkbox whose context has one
of these is never treated as an attestation/consent checkbox. -/
def prescriptionKeywords : List String :=
  ["sensoready", "unoready", "syringe", "prefilled",
   "loading dose", "maintenance", "inject",
   "150 mg", "300 mg", "75 mg", "cosentyx",
   "refills", "12 refills", "or __"]

/-- Attestation/consent keywords (line 540). -/
def nonRxKeywords : List String :=
  ["i have read and agree",
   "terms and conditions",
   "patient signature",
   "prescriber signature",
   "authorized representative signature",
   "consent is not required",
   "consent to",
   "hereby authorize",
   "by signing below"]

/-- Pediatric context markers (line 578). -/
def pediatricMarkers : List String :=
  ["pediatric", "wt<50", "wt <50", "wt≥50", "wt ≥50", "wt<50kg"]

/-- Dosage inference from the three closest text blocks (lines 590–616):
the `(2x150` special case, then the parenthesised strength pattern, then
stand-alone strength mentions. -/
def dosageFromClosest3 (closest3Text : String) : Option String :=
  if sContains closest3Text "(2x150" then some "300mg"
  else
    let fromParen : Option String :=
      match searchParenDose closest3Text with
      | some (_, dv) =>
        if dv = "75" then some "75mg"
        else if dv = "300" then some "300mg"
        else if dv = "150" then some "150mg"
        else none
      | none => none
    match fromParen with
    | some d => some d
    | none =>
      if sContains closest3Text "75 mg" ∨ sContains closest3Text "75mg" then some "75mg"
      else if sContains closest3Text "300 mg" ∨ sContains closest3Text "300mg" then some "300mg"
      else if sContains closest3Text "150 mg" ∨ sContains closest3Text "150mg" then some "150mg"
      else none

/-- Dosage fallback on the full context (lines 619–634). -/
def dosageOfContext (dosageFromClosest : Option String) (context : String) : Option String :=
  match dosageFromClosest with
  | some d => some d
  | none =>
    if sContains context "(2x150" then some "300mg"
    else if sContains context "75 mg" ∨ sContains context "75mg" ∨ sContains context "(1x75" then some "75mg"
    else if sContains context "300 mg" ∨ sContains context "300mg" ∨ sContains context "(1x300" then some "300mg"
    else if sContains context "150 mg" ∨ sContains context "150mg" ∨ sContains context "(1x150" then some "150mg"
    else if sContains context "inject 75" then some "75mg"
    else if sContains context "inject 300" then some "300mg"
    else if sContains context "inject 150" then some "150mg"
    else none

/-- Device classification from the closest single line (lines 664–679). -/
def deviceFromClosest (ct : String) : Option String :=
  if sContains ct "unoready" ∧ ¬sContains ct "sensoready" ∧ ¬sContains ct "syringe" then
    some "unoready_pen"
  else if sContains ct "sensoready" ∧ ¬sContains ct "unoready" ∧ ¬sContains ct "syringe" then
    some "sensoready_pen"
  else if (sContains ct "prefilled syringe" ∨ (sContains ct "prefilled" ∧ sContains ct "syringe"))
          ∧ ¬sContains ct "sensoready" ∧ ¬sContains ct "unoready" then
    some "syringe"
  else if sContains ct "syringe" ∧ ¬sContains ct "sensoready" ∧ ¬sContains ct "unoready" then
    some "syringe"
  else none

/-- The `block_text[idx+10]` membership test of line 709. -/
def sensoreadyBoundaryOk (bt : String) (idx : Nat) : Bool :=
  decide (idx + 10 ≥ bt.toList.length) ||
    (match (bt.toList.drop (idx + 10)).head? with
     | some c => [' ', '®', '\n', '\t', ')'].contains c
     | none => false)

/-- Device classification fallback over the ten nearest lines (lines 684–730);
an inner mismatch (the `sensoready` product-name guard) moves on to the next
line, as the Python loop does. -/
def deviceFromFallbackList : List NearbyText → Option String
  | [] => none
  | tb :: rest =>
    let bt := sLower tb.text
    if sContains bt "unoready® pen" ∨ sContains bt "unoready pen" then some "unoready_pen"
    else if sContains bt "unoready" ∧ ¬sContains bt "sensoready" then some "unoready_pen"
    else if sContains bt "sensoready® pen" ∨ sContains bt "sensoready pen" then some "sensoready_pen"
    else if sContains bt "sensoready" ∧ ¬sContains bt "unoready" then
      match sFind? bt "sensoready" with
      | some idx =>
        if sensoreadyBoundaryOk bt idx then some "sensoready_pen"
        else deviceFromFallbackList rest
      | none => deviceFromFallbackList rest
    else if sContains bt "prefilled syringe" then some "syringe"
    else if (sContains bt "prefilled" ∧ sContains bt "syringe")
            ∧ ¬sContains bt "sensoready" ∧ ¬sContains bt "unoready" then some "syringe"
    else if sContains bt "syringe" ∧ ¬sContains bt "sensoready" ∧ ¬sContains bt "unoready" then
      some "syringe"
    else deviceFromFallbackList rest

/-- Dose-type classification from the closest single line (lines 740–749). -/
def doseFromClosest (ct : String) : Option String :=
  if sContains ct "loading dose: inject" ∨ (sContains ct "loading dose:" ∧ ¬sContains ct "already completed") then
    some "loading"
  else if sContains ct "then every 2 weeks" ∨ (sContains ct "every 2 weeks" ∧ ¬sContains ct "every 4 weeks") then
    some "maintenance_increase"
  else if sContains ct "then every 4 weeks thereafter" ∨ sContains ct "every 4 weeks thereafter" ∨ sContains ct "every 4 weeks" then
    some "maintenance"
  else if sContains ct "maintenance: inject" ∨ (sContains ct "maintenance:" ∧ ¬sContains ct "loading") then
    some "maintenance"
  else none

/-- The ordered loading-dose patterns of line 758. -/
def loadingPatterns : List String :=
  ["loading dose: inject", "loading dose inject", "loading dose:", "loading dose "]

/-- Position of the first loading pattern found in the context, skipping
occurrences surrounded by "loading dose already completed" (lines 759–766). -/
def findLoadingPos (context : String) : List String → Option Nat
  | [] => none
  | p :: rest =>
    match sFind? context p with
    | some pos =>
      if sContains (sSlice context (pos - 10) (pos + 50)) "loading dose already completed" then
        findLoadingPos context rest
      else some pos
    | none => findLoadingPos context rest

/-- The ordered maintenance patterns of lines 769–774, each paired with the
maintenance type it implies (lines 780–786). -/
def maintenancePatterns : List (String × String) :=
  [("maintenance: inject", "maintenance"), ("maintenance inject", "maintenance"),
   ("then every 2 weeks", "maintenance_increase"), ("every 2 weeks", "maintenance_increase"),
   ("then every 4 weeks thereafter", "maintenance"), ("every 4 weeks thereafter", "maintenance"),
   ("every 4 weeks", "maintenance"),
   ("maintenance:", "maintenance"), ("maintenance ", "maintenance")]

/-- Position and type of the first maintenance pattern found (lines 775–787). -/
def findMaintenancePos (context : String) : List (String × String) → Option (Nat × String)
  | [] => none
  | (p, ty) :: rest =>
    match sFind? context p with
    | some pos => some (pos, ty)
    | none => findMaintenancePos context rest

/-- Context-based dose-type fallback (lines 756–802): compare the positions of
the loading and maintenance patterns inside the context. -/
def doseFromContext (context : String) : Option String :=
  match findLoadingPos context loadingPatterns, findMaintenancePos context maintenancePatterns with
  | some l, some (m, ty) => if l < m then some "loading" else some ty
  | some _, none => some "loading"
  | none, some (_, ty) => some ty
  | none, none => none

/-- One classified checkbox (the source's `checkbox_info` dict). Entries
appended to `checkbox_data` always have `cbType`, `dosage` and `patient_type`
present, with `form` present for devices and `dose_type` for dosings. -/
structure CheckboxInfo where
  id : String
  top : ℤ
  left : ℤ
  context : String
  context_original : String
  cbType : Option String
  dosage : Option String
  patient_type : Option String
  form : Option String
  dose_type : Option String
  refills : Option String
deriving DecidableEq

/-- Final assembly of lines 806–825: append the checkbox info only when its
type, dosage and patient type are all determined, with the form present for a
device and the dose type present for a dosing. -/
def finishClassify (cbId : String) (cbTop cbLeft : ℤ) (context contextOriginal : String)
    (dosage : Option String) (patientType : String)
    (triple : Option String × Option String × Option String) : Option CheckboxInfo :=
  let (cbType, form, doseType) := triple
  if cbType.isSome ∧ dosage.isSome then
    if cbType = some "device" ∧ form.isSome then
      some ⟨cbId, cbTop, cbLeft, context, contextOriginal, cbType, dosage, some patientType, form, doseType, none⟩
    else if cbType = some "dosing" ∧ doseType.isSome then
      some ⟨cbId, cbTop, cbLeft, context, contextOriginal, cbType, dosage, some patientType, form, doseType, none⟩
    else none
  else none

/-- The dosage-based patient-type override of lines 636–643: 75 mg is always
pediatric, 300 mg is always adult, anything else keeps the context-derived
type. -/
def refinePatientType (dosage : Option String) (pt0 : String) : String :=
  if dosage = some "75mg" then "pediatric"
  else if dosage = some "300mg" then "adult"
  else pt0

/-- Classify one selected checkbox (lines 461–825): spatial context, the
attestation filter, patient type, dosage, the dosage-based patient-type
override, and the position-based device/dosing split. Returns `none` when the
checkbox is skipped or left unclassified. -/
def classifyCheckbox (blocks : List Block) (cbId : String) (cbPage cbTop cbLeft : ℤ) :
    Option CheckboxInfo :=
  let views := collectNearby blocks cbPage cbTop cbLeft
  let nearby := views.1
  let sameRow := views.2
  let context := sLower (sJoin " " (nearby.map (·.text)))
  let contextOriginal := sJoin " " (nearby.map (·.text))
  let closestText := match nearby with | [] => "" | b :: _ => sLower b.text
  let closest3Text := match nearby with | [] => "" | _ => sLower (sJoin " " ((nearby.take 3).map (·.text)))
  let hasRx := prescriptionKeywords.any fun k => sContains context k
  let hasNonRx := nonRxKeywords.any fun k => sContains context k
  let hasRefills := sContains context "refills" ∨ sContains context "refill"
  if hasNonRx ∧ ¬hasRx ∧ ¬hasRefills then none
  else
    let pt0 := if pediatricMarkers.any (fun k => sContains context k) then "pediatric" else "adult"
    let dosage := dosageOfContext (dosageFromClosest3 closest3Text) context
    let patientType := refinePatientType dosage pt0
    let _sameRowText := sLower (sJoin " " (sameRow.map (·.text)))
    let triple : Option String × Option String × Option String :=
      if cbLeft < 350 then
        match deviceFromClosest closestText with
        | some f => (some "device", some f, none)
        | none =>
          match deviceFromFallbackList (nearby.take 10) with
          | some f => (some "device", some f, none)
          | none => (none, none, none)
      else if cbLeft < 700 then
        match doseFromClosest closestText with
        | some dt => (some "dosing", none, some dt)
        | none =>
          match doseFromContext context with
          | some dt => (some "dosing", none, some dt)
          | none => (none, none, none)
      else (none, none, none)
    finishClassify cbId cbTop cbLeft context contextOriginal dosage patientType triple

/-! ## Refills table scan (lines 368–450) -/

/-- One entry of the source's `refills_data` list. -/
structure RefillsEntry where
  table_row : Nat
  table_idx : Nat
  refills : String
  patient_type : Option String
  dosage : Option String
  dose_type : Option String
  row_text : String
deriving DecidableEq

/-- Row-level pediatric markers of line 389. -/
def rowPediatricMarkers : List String :=
  ["pediatric", "wt<50", "wt <50", "wt≥50", "wt ≥50"]

/-- Patient type of a table row (lines 386–396): the table header's type when
detected, else row-level markers. -/
def rowPatientType (tablePatientType : Option String) (rowText : String) : Option String :=
  match tablePatientType with
  | some t => some t
  | none =>
    if rowPediatricMarkers.any (fun m => sContains rowText m) then some "pediatric"
    else if sContains rowText "cosentyx 150 mg" ∨ sContains rowText "cosentyx 300 mg" then some "adult"
    else if sContains rowText "cosentyx 75 mg" then some "pediatric"
    else none

/-- Dosage of a table row, together with the 75 mg pediatric override of
line 404 (which overwrites the row patient type). -/
def rowDosagePt (rowText : String) (pt : Option String) : Option String × Option String :=
  if sContains rowText "(2x150" ∨ sContains rowText "300 mg" then (some "300mg", pt)
  else if sContains rowText "75 mg" then (some "75mg", some "pediatric")
  else if sContains rowText "150 mg" then (some "150mg", pt)
  else (none, pt)

/-- Dose type of a table row (lines 410–417). -/
def rowDoseType (rowText : String) : Option String :=
  if sContains rowText "maintenance increase" ∨ (sContains rowText "every 2 weeks" ∧ sContains rowText "maintenance") then
    some "maintenance_increase"
  else if sContains rowText "loading" ∧ sContains rowText "loading dose:" then some "loading"
  else if sContains rowText "maintenance" ∨ sContains rowText "every 4 weeks" then some "maintenance"
  else none

/-- Scan one table row for a refills value (lines 381–448): the
`12 refills, or N refills` pattern records `"12 or N"`; otherwise a generic
`12 refills` mention (without `n/a`) records the default `"12 or 0"`. -/
def processRow (tableIdx rowIdx : Nat) (tablePatientType : Option String)
    (row : List String) : Option RefillsEntry :=
  let rowText := sLower (sJoin " " row)
  let pt0 := rowPatientType tablePatientType rowText
  let (rowDosage, pt) := rowDosagePt rowText pt0
  let doseTy := rowDoseType rowText
  match search12Refills rowText with
  | some handwritten =>
    some ⟨rowIdx, tableIdx, "12 or " ++ handwritten, pt, rowDosage, doseTy, sTake rowText 100⟩
  | none =>
    if sContains rowText "12 refills" ∧ ¬sContains rowText "n/a" then
      some ⟨rowIdx, tableIdx, "12 or 0", pt, rowDosage, doseTy, sTake rowText 100⟩
    else none

/-- Table-level patient type from the header row (lines 372–379). -/
def tablePatientTypeOf (table : List (List String)) : Option String :=
  match table with
  | [] => none
  | headerRow :: _ =>
    let headerText := sLower (sJoin " " headerRow)
    if sContains headerText "product information (adult)" then some "adult"
    else if sContains headerText "product information (pediatric)" then some "pediatric"
    else none

/-- First pass of `_detect_from_checkboxes`: extract all refills entries from
the table data (lines 368–450). -/
def refillsFromTables (tables : List (List (List String))) : List RefillsEntry :=
  tables.enum.flatMap fun (tableIdx, table) =>
    let tpt := tablePatientTypeOf table
    table.enum.filterMap fun (rowIdx, row) => processRow tableIdx rowIdx tpt row

/-! ## Section grouping and combination building (lines 827–939) -/

/-- One group of classified checkboxes, keyed by `(patient_type, dosage)`. -/
structure CbGroup where
  devices : List CheckboxInfo
  dosings : List CheckboxInfo
deriving DecidableEq

/-- A detected prescription combination (the dicts built at lines 919–928;
`refills_text` is only attached when a matching refills entry was found). -/
structure Combination where
  dosage : String
  patient_type : String
  form : String
  dose_type : String
  refills_text : Option String := none
deriving DecidableEq

/-- Add one classified checkbox to the ordered group map (lines 830–838);
Python dict semantics keep the first-insertion order of keys. -/
def addToGroups (acc : List ((String × String) × CbGroup)) (cb : CheckboxInfo) :
    List ((String × String) × CbGroup) :=
  let key := (cb.patient_type.getD "", cb.dosage.getD "")
  let add : CbGroup → CbGroup := fun g =>
    if cb.cbType = some "device" then { g with devices := g.devices ++ [cb] }
    else if cb.cbType = some "dosing" then { g with dosings := g.dosings ++ [cb] }
    else g
  if (acc.find? fun e => e.1 = key).isSome then
    acc.map fun e => if e.1 = key then (e.1, add e.2) else e
  else acc ++ [(key, add ⟨[], []⟩)]

/-- Group the classified checkboxes by `(patient_type, dosage)` (Step 2). -/
def buildGroups (data : List CheckboxInfo) : List ((String × String) × CbGroup) :=
  data.foldl addToGroups []

/-- The first refills entry matching this group's patient type and dosage and
the dosing checkbox's dose type (lines 907–917), for maintenance dose types. -/
def matchRefills (refillsData : List RefillsEntry) (patientType dosage : String)
    (doseTy : Option String) : Option String :=
  if doseTy = some "maintenance" ∨ doseTy = some "maintenance_increase" then
    (refillsData.find? fun re =>
      re.patient_type = some patientType ∧ re.dosage = some dosage ∧ re.dose_type = doseTy).map
      (·.refills)
  else none

/-- Python truthiness guard on an optional string (`if matching_refills:`). -/
def pyTruthy (r : Option String) : Option String :=
  match r with
  | some "" => none
  | x => x

/-- Build the cross-product of devices × dosings for one group (lines
891–936); groups missing devices or dosings are skipped. -/
def buildCombosForGroup (patientType dosage : String) (g : CbGroup)
    (refillsData : List RefillsEntry) : List Combination :=
  if g.devices.isEmpty ∨ g.dosings.isEmpty then []
  else
    g.devices.flatMap fun device =>
      g.dosings.map fun dosing =>
        let matching := matchRefills refillsData patientType dosage dosing.dose_type
        { dosage := dosage, patient_type := patientType,
          form := device.form.getD "", dose_type := dosing.dose_type.getD "",
          refills_text := pyTruthy matching }

/-- Step 3: build all combinations from the grouped checkboxes. -/
def buildAllCombos (groups : List ((String × String) × CbGroup))
    (refillsData : List RefillsEntry) : List Combination :=
  groups.flatMap fun e => buildCombosForGroup e.1.1 e.1.2 e.2 refillsData

/-- Model of `_detect_from_checkboxes` (lines 267–939): refills first pass, per-checkbox
classification second pass, grouping, and cross-product combination building.
Returns `[]` when no checkbox is selected. -/
def detectFromCheckboxes (checkboxes : List (String × Bool)) (blocks : List Block)
    (tables : List (List (List String))) : List Combination :=
  let selectedCount := (checkboxes.filter (·.2)).length
  if selectedCount = 0 then []
  else
    let refillsData := refillsFromTables tables
    let checkboxData := checkboxes.filterMap fun (cbId, isSelected) =>
      if ¬isSelected then none
      else
        match blockLookup blocks cbId with
        | none => none
        | some b => classifyCheckbox blocks cbId b.page b.top b.left
    buildAllCombos (buildGroups checkboxData) refillsData

/-! ## Fallback detection strategies (lines 941–1120) -/

/-- A form-field value as `_detect_from_forms` consumes it: the OCR parser
produces plain strings, but the source also accepts dict-shaped values with
`value` / `selected` / `refills` keys (lines 956–962). -/
inductive FormValue where
  | str (v : String)
  | dict (value : Option String) (selected : Option Bool) (refills : Option String)
deriving DecidableEq

/-- Model of `_extract_dosage_from_text` (lines 1075–1083). -/
def extractDosageFromText (text : String) : Option String :=
  if sContains text "150" then some "150mg"
  else if sContains text "300" then some "300mg"
  else if sContains text "75" then some "75mg"
  else none

/-- Model of `_extract_patient_type_from_text` (lines 1085–1091): keyword-only, never
looks at the dosage. -/
def extractPatientTypeFromText (text : String) : String :=
  if sContains text "pediatric" ∨ sContains text "wt <50" ∨ sContains text "wt <" ∨ sContains text "wt<50" then
    "pediatric"
  else if sContains text "wt ≥50" ∨ sContains text "wt >=" ∨ sContains text "wt>=50" then
    "pediatric"
  else "adult"

/-- Model of `_extract_form_from_text` (lines 1093–1110). -/
def extractFormFromText (text : String) : Option String :=
  if sContains text "sensoready" then some "sensoready_pen"
  else if sContains text "unoready" then some "unoready_pen"
  else if sContains text "prefilled syringe" ∨ sContains text "prefilled" then some "syringe"
  else if sContains text "syringe" ∧ ¬sContains text "prefilled" then some "syringe"
  else if sContains text "pen" ∧ ¬sContains text "unoready" ∧ ¬sContains text "sensoready" then
    some "sensoready_pen"
  else none

/-- Model of `_extract_dose_type_from_text` (lines 1112–1120). -/
def extractDoseTypeFromText (text : String) : Option String :=
  if sContains text "maintenance increase" then some "maintenance_increase"
  else if sContains text "loading dose" ∨ sContains text "loading" then some "loading"
  else if sContains text "maintenance" then some "maintenance"
  else none

/-- Model of `_extract_refills_text` (lines 1038–1073). -/
def extractRefillsText (lines : List String) : Option String :=
  let text := sJoin " " lines
  match search12Or (sLower text) with
  | some n => some ("12 or " ++ n)
  | none =>
    if sContains (sLower text) "n/a" then some "N/A"
    else
      match searchNumRefills (sLower text) with
      | some n => some n
      | none => none

/-- Model of `_detect_from_forms` (lines 941–990): SELECTED-valued fields whose names
embed dosage/device/dose-type keywords, with duplicate suppression. -/
def detectFromForms (forms : List (String × FormValue)) : List Combination :=
  forms.foldl
    (fun acc fv =>
      let fieldNameLower := sLower fv.1
      let isSelected : Bool :=
        match fv.2 with
        | .str v => sUpper v = "SELECTED"
        | .dict v sel _ => v = some "SELECTED" ∨ sel = some true
      let refillsText :=
        match fv.2 with
        | .dict _ _ r => r
        | .str _ => none
      if ¬isSelected then acc
      else
        match extractDosageFromText fieldNameLower, extractFormFromText fieldNameLower,
              extractDoseTypeFromText fieldNameLower with
        | some dosage, some form, some doseTy =>
          let combo : Combination :=
            { dosage := dosage, patient_type := extractPatientTypeFromText fieldNameLower,
              form := form, dose_type := doseTy, refills_text := pyTruthy refillsText }
          if combo ∈ acc then acc else acc ++ [combo]
        | _, _, _ => acc)
    []

/-- Checkbox glyph markers of line 1006 (checked against the raw line). -/
def rawTextMarkers : List String := ["☑", "✓", "[x]", "selected", "☒", "✔"]

/-- Model of `_detect_from_raw_text` (lines 992–1036): lines with a checkbox marker,
with a context window `lines[i-1 : i+3]`. -/
def detectFromRawText (rawText : String) : List Combination :=
  let lines := sSplitChar '\n' rawText
  lines.enum.foldl
    (fun acc (i, line) =>
      if ¬ rawTextMarkers.any (fun m => sContains line m) then acc
      else
        let contextLines := (lines.drop (i - 1)).take (i + 3 - (i - 1))
        let context := sLower (sJoin " " contextLines)
        let refillsText := extractRefillsText contextLines
        match extractDosageFromText context, extractFormFromText context,
              extractDoseTypeFromText context with
        | some dosage, some form, some doseTy =>
          let combo : Combination :=
            { dosage := dosage, patient_type := extractPatientTypeFromText context,
              form := form, dose_type := doseTy, refills_text := pyTruthy refillsText }
          if combo ∈ acc then acc else acc ++ [combo]
        | _, _, _ => acc)
    []

/-- The hardcoded default combination of lines 258–263. -/
def defaultCombination : Combination :=
  { dosage := "150mg", patient_type := "adult", form := "sensoready_pen",
    dose_type := "maintenance" }

/-- Model of `_detect_checked_combinations` (lines 227–265): checkboxes first, then
form fields, then raw text, then the hardcoded default. -/
def detectCheckedCombinations (forms : List (String × FormValue)) (rawText : String)
    (checkboxes : List (String × Bool)) (blocks : List Block)
    (tables : List (List (List String))) : List Combination :=
  let combinations := detectFromCheckboxes checkboxes blocks tables
  let combinations := if combinations.isEmpty then detectFromForms forms else combinations
  let combinations := if combinations.isEmpty then detectFromRawText rawText else combinations
  if combinations.isEmpty then [defaultCombination] else combinations

/-! ## Dosing lookup table and prescription builder (lines 56–184, 1122–1225) -/

/-- One leaf of the `DOSING_INFO` nested dict. -/
structure DosingEntry where
  sig : String
  quantity : String
  refills : String
deriving DecidableEq

/-- The `DOSING_INFO` nested lookup table (lines 58–184), as a function of the
four string keys; `none` models a missing key (an empty dict at the leaf). -/
def DOSING_INFO (dosage patientType form doseType : String) : Option DosingEntry :=
  if dosage = "150mg" then
    if patientType = "adult" ∨ patientType = "pediatric" then
      if form = "sensoready_pen" ∨ form = "syringe" then
        if doseType = "loading" then
          some ⟨"Inject 150 mg subcutaneously on Weeks 0, 1, 2, 3", "4", "N/A"⟩
        else if doseType = "maintenance" then
          some ⟨"Inject 150 mg subcutaneously on Week 4, then every 4 weeks thereafter", "12", "12 or 0"⟩
        else none
      else none
    else none
  else if dosage = "300mg" then
    if patientType = "adult" then
      if form = "unoready_pen" then
        if doseType = "loading" then
          some ⟨"Inject 300 mg subcutaneously on Weeks 0, 1, 2, 3", "4", "N/A"⟩
        else if doseType = "maintenance" then
          some ⟨"Inject 300 mg subcutaneously on Week 4, then every 4 weeks thereafter", "12", "12 or 0"⟩
        else if doseType = "maintenance_increase" then
          some ⟨"Inject 300 mg subcutaneously every 2 weeks (For patients currently taking COSENTYX every 4 weeks as per label. Loading dose already completed.)", "24", "12 or 0"⟩
        else none
      else if form = "sensoready_pen" then
        if doseType = "loading" then
          some ⟨"Inject 300 mg subcutaneously on Weeks 0, 1, 2, 3", "8", "N/A"⟩
        else if doseType = "maintenance" then
          some ⟨"Inject 300 mg subcutaneously on Week 4, then every 4 weeks thereafter", "12", "12 or 0"⟩
        else if doseType = "maintenance_increase" then
          some ⟨"Inject 300 mg subcutaneously every 2 weeks (For patients currently taking COSENTYX every 4 weeks as per label. Loading dose already completed.)", "24", "12 or 0"⟩
        else none
      else if form = "syringe" then
        if doseType = "loading" then
          some ⟨"Inject 300 mg subcutaneously on Weeks 0, 1, 2, 3", "8", "N/A"⟩
        else if doseType = "maintenance" then
          some ⟨"Inject 300 mg subcutaneously on Week 4, then every 4 weeks thereafter", "24", "12 or 0"⟩
        else if doseType = "maintenance_increase" then
          some ⟨"Inject 300 mg subcutaneously every 2 weeks (For patients currently taking COSENTYX every 4 weeks as per label. Loading dose already completed.)", "24", "12 or 0"⟩
        else none
      else none
    else none
  else if dosage = "75mg" then
    if patientType = "pediatric" then
      if form = "syringe" then
        if doseType = "loading" then
          some ⟨"Inject 75 mg subcutaneously on Weeks 0, 1, 2, 3", "4", "N/A"⟩
        else if doseType = "maintenance" then
          some ⟨"Inject 75 mg subcutaneously on Week 4, then every 4 weeks thereafter", "12", "12 or 0"⟩
        else none
      else none
    else none
  else none

/-- Resolve the dosing info for a combination, including the generic-pen
fallback of lines 1144–1145. -/
def resolveDosingInfo (c : Combination) : Option DosingEntry :=
  match DOSING_INFO c.dosage c.patient_type c.form c.dose_type with
  | some e => some e
  | none =>
    if sContains c.form "pen" then
      DOSING_INFO c.dosage c.patient_type "sensoready_pen" c.dose_type
    else none

/-- One prescription field with metadata (`PrescriptionField` of
`models/prescription.py`); confidence in hundredths. -/
structure PrescriptionField where
  value : Option String := none
  source : String := "form"
  confidence : ℤ := 0
  validated : Bool := false
  original_value : Option String := none
deriving DecidableEq

/-- Model of `SinglePrescription` of `models/prescription.py`. -/
structure SinglePrescription where
  product : PrescriptionField := {}
  dosage : PrescriptionField := {}
  form : PrescriptionField := {}
  dose_type : PrescriptionField := {}
  patient_type : PrescriptionField := {}
  quantity : PrescriptionField := {}
  sig : PrescriptionField := {}
  refills : PrescriptionField := {}
deriving DecidableEq

/-- Model of `SinglePrescription.is_valid` (lines 47–60): all mandatory fields
validated (patient type and refills are not required). -/
def SinglePrescription.is_valid (p : SinglePrescription) : Bool :=
  p.product.validated ∧ p.dosage.validated ∧ p.form.validated ∧
    p.dose_type.validated ∧ p.quantity.validated ∧ p.sig.validated

/-- Model of `PrescriptionInfo` of `models/prescription.py`. -/
structure PrescriptionInfo where
  prescriptions : List SinglePrescription := []
deriving DecidableEq

/-- Model of `PrescriptionInfo.is_valid` (lines 95–101): at least one member valid. -/
def PrescriptionInfo.is_valid (info : PrescriptionInfo) : Bool :=
  info.prescriptions.any (·.is_valid)

/-- The display name of a device form (lines 1151–1158). -/
def formDisplayOf (form : String) : String :=
  if form = "sensoready_pen" then "Sensoready Pen"
  else if form = "unoready_pen" then "UnoReady Pen"
  else if form = "syringe" then "Prefilled Syringe"
  else sTitle (sReplaceUnderscore form)

/-- The refills value priority of lines 1163–1172. -/
def refillsValueOf (c : Combination) (dosingInfo : Option DosingEntry) : String :=
  match pyTruthy c.refills_text with
  | some r => r
  | none =>
    if c.dose_type = "loading" then "0"
    else if c.dose_type = "maintenance" ∨ c.dose_type = "maintenance_increase" then "12 or 0"
    else (dosingInfo.map (·.refills)).getD "12"

/-- Model of `_create_prescription` (lines 1122–1225): build a `SinglePrescription`
from a combination via the dosing lookup; every field is marked validated. -/
def createPrescription (c : Combination) : SinglePrescription :=
  let dosingInfo := resolveDosingInfo c
  let productValue := "COSENTYX " ++ c.dosage
  let formDisplay := formDisplayOf c.form
  let doseTypeDisplay := sTitle (sReplaceUnderscore c.dose_type)
  let refillsValue := refillsValueOf c dosingInfo
  { product := ⟨some productValue, "form", 95, true, none⟩,
    dosage := ⟨some c.dosage, "form", 95, true, none⟩,
    form := ⟨some formDisplay, "form", 95, true, none⟩,
    dose_type := ⟨some doseTypeDisplay, "form", 95, true, none⟩,
    patient_type := ⟨some (sCapitalize c.patient_type), "form", 95, true, none⟩,
    quantity := ⟨some ((dosingInfo.map (·.quantity)).getD "12"), "lookup", 100, true, none⟩,
    sig := ⟨some ((dosingInfo.map (·.sig)).getD "Use as directed"), "lookup", 100, true, none⟩,
    refills := ⟨some refillsValue,
      if (pyTruthy c.refills_text).isSome then "form" else "lookup",
      if (pyTruthy c.refills_text).isSome then 100 else 90, true, none⟩ }

/-- The parsed Textract payload fields that `PrescriptionExtractor.extract`
reads (lines 186–225). -/
structure TextractData where
  forms : List (String × FormValue) := []
  raw_text : String := ""
  tables : List (List (List String)) := []
  checkboxes : List (String × Bool) := []
  blocks : List Block := []

/-- Model of `PrescriptionExtractor.extract` (lines 186–225): detect combinations, then
build one `SinglePrescription` per combination. -/
def extract (td : TextractData) : PrescriptionInfo :=
  { prescriptions :=
      (detectCheckedCombinations td.forms td.raw_text td.checkboxes td.blocks td.tables).map
        createPrescription }

/-! ## Business-rule router (`ExtractionResult.determine_routing`,
`models/extraction_result.py` lines 68–134) -/

/-- Model of `RoutingDecision` of `models/extraction_result.py`. -/
structure RoutingDecision where
  action : String := "manual_review"
  create_patient_profile : Bool := false
  create_prescriber_profile : Bool := false
  create_prescription : Bool := false
  manual_review_required : Bool := false
  review_reason : Option String := none
deriving DecidableEq

/-- Model of `determine_routing`, as a pure function of the four validity flags;
returns the routing decision together with the validation status it sets. -/
def determineRouting (patientValid prescriberValid prescriptionValid attestationValid : Bool) :
    RoutingDecision × String :=
  if patientValid then
    if prescriberValid then
      if prescriptionValid then
        if attestationValid then
          ({ action := "create_full_profile", create_patient_profile := true,
             create_prescriber_profile := true, create_prescription := true,
             manual_review_required := false, review_reason := none }, "complete")
        else
          ({ action := "manual_review", create_patient_profile := true,
             create_prescriber_profile := true, create_prescription := true,
             manual_review_required := true,
             review_reason := some "Missing or invalid attestation" }, "partial")
      else
        ({ action := "create_patient_only", create_patient_profile := true,
           create_prescriber_profile := false, create_prescription := false,
           manual_review_required := true,
           review_reason := some "Missing or invalid prescription information" }, "partial")
    else
      ({ action := "create_patient_only", create_patient_profile := true,
         create_prescriber_profile := false, create_prescription := false,
         manual_review_required := true,
         review_reason := some "Missing or invalid prescriber information" }, "partial")
  else
    ({ action := "manual_review", create_patient_profile := false,
       create_prescriber_profile := false, create_prescription := false,
       manual_review_required := true,
       review_reason := some "Missing or invalid patient information" }, "failed")

/-! ## Bedrock document classifier (`classification/bedrock_classifier.py`)

The external service call and the JSON library are the two collaborators:
`invoke` is the outcome of `_invoke_bedrock` (`none` models any raised
exception: network failure, malformed service payload, missing keys) and
`loads` is `json.loads` on the extracted brace-delimited slice. Confidence is
modelled in hundredths. -/

/-- Outcome of `json.loads` on a candidate JSON string: a flat object with
string- or number-valued keys, some non-object JSON value, or a decode error. -/
inductive JsonOutcome where
  | obj (fields : List (String × (String ⊕ ℤ)))
  | nonObj
  | decodeError
deriving DecidableEq

/-- The brace-delimited slice of `_parse_classification_response` lines
129–133: from the first `{` to one past the last `}`, provided that span is
non-empty. -/
def braceSlice (response : String) : Option String :=
  match sFind? response "\x7b", (listFind? "\x7d".toList response.toList.reverse) with
  | some startIdx, some revIdx =>
    let endIdx := response.toList.length - 1 - revIdx + 1
    if startIdx < endIdx then some (sSlice response startIdx endIdx) else none
  | _, _ => none

/-- Model of `_parse_classification_response` (lines 118–150): parse the brace slice,
falling back to the `{"document_type": "other", "confidence": 0.0}` dict when
there is no slice or on a JSON decode error. -/
def parseClassificationResponse (loads : String → JsonOutcome) (response : String) :
    JsonOutcome :=
  match braceSlice response with
  | some jsonStr =>
    match loads jsonStr with
    | .decodeError => .obj [("document_type", .inl "other"), ("confidence", .inr 0)]
    | r => r
  | none => .obj [("document_type", .inl "other"), ("confidence", .inr 0)]

/-- Model of `classify_document` (lines 21–50): returns `(document_type, confidence)`;
the catch-all `except` turns any failure — a raised service call, a non-dict
JSON result, or a non-numeric confidence (which breaks the `:.2f` log
formatting) — into `("other", 0.0)`. Total by construction: never raises. -/
def classifyDocument (invoke : Option String) (loads : String → JsonOutcome) :
    String × ℤ :=
  match invoke with
  | none => ("other", 0)
  | some response =>
    match parseClassificationResponse loads response with
    | .obj fields =>
      let docType :=
        match (fields.find? (fun f => f.1 = "document_type")).map (·.2) with
        | some (.inl s) => some s
        | some (.inr _) => none
        | none => some "other"
      let confidence :=
        match (fields.find? (fun f => f.1 = "confidence")).map (·.2) with
        | some (.inr q) => some q
        | some (.inl _) => none
        | none => some 0
      match docType, confidence with
      | some d, some c => (d, c)
      | _, _ => ("other", 0)
    | _ => ("other", 0)

/-! ## Spec-side definitions (stated from the specification's words, for
comparison against the source-derived definitions above) -/

/-- Modelled from the spec (§4.5): doses per cycle — 4 for loading, 2 for
maintenance increase, 1 for maintenance. -/
def specDosesPerCycle (doseType : String) : ℕ :=
  if doseType = "loading" then 4
  else if doseType = "maintenance_increase" then 2
  else 1

/-- Modelled from the spec (§4.5): units per dose — 2 for 300 mg delivered via
Sensoready pen or syringe, else 1. -/
def specUnitsPerDose (dosage form : String) : ℕ :=
  if dosage = "300mg" ∧ (form = "sensoready_pen" ∨ form = "syringe") then 2 else 1

/-- Modelled from the spec (§4.5): the claimed quantity formula
`doses_per_cycle × units_per_dose`. -/
def specQuantity (dosage form doseType : String) : ℕ :=
  specDosesPerCycle doseType * specUnitsPerDose dosage form

/-- The quantities the source's lookup table actually contains (the amended
claim): loading entries follow the spec's `4 × units_per_dose`; maintenance
entries are 12 except Adult 300 mg syringe (24); maintenance-increase entries
are 24. -/
def amendedQuantity (dosage form doseType : String) : ℕ :=
  if doseType = "loading" then 4 * specUnitsPerDose dosage form
  else if doseType = "maintenance" then
    (if dosage = "300mg" ∧ form = "syringe" then 24 else 12)
  else 24

/-- The 19 (dosage, patientType, form, doseType) keys present in
`DOSING_INFO`. -/
def dosingTableKeys : List (String × String × String × String) :=
  [("150mg", "adult", "sensoready_pen", "loading"),
   ("150mg", "adult", "sensoready_pen", "maintenance"),
   ("150mg", "adult", "syringe", "loading"),
   ("150mg", "adult", "syringe", "maintenance"),
   ("150mg", "pediatric", "sensoready_pen", "loading"),
   ("150mg", "pediatric", "sensoready_pen", "maintenance"),
   ("150mg", "pediatric", "syringe", "loading"),
   ("150mg", "pediatric", "syringe", "maintenance"),
   ("300mg", "adult", "unoready_pen", "loading"),
   ("300mg", "adult", "unoready_pen", "maintenance"),
   ("300mg", "adult", "unoready_pen", "maintenance_increase"),
   ("300mg", "adult", "sensoready_pen", "loading"),
   ("300mg", "adult", "sensoready_pen", "maintenance"),
   ("300mg", "adult", "sensoready_pen", "maintenance_increase"),
   ("300mg", "adult", "syringe", "loading"),
   ("300mg", "adult", "syringe", "maintenance"),
   ("300mg", "adult", "syringe", "maintenance_increase"),
   ("75mg", "pediatric", "syringe", "loading"),
   ("75mg", "pediatric", "syringe", "maintenance")]

/-- Modelled from the spec (§4.1): the claimed combined distance metric,
horizontal offset plus twice the vertical offset. -/
def specCombinedDistance (top left bTop bLeft : ℤ) : ℤ :=
  zabs (bLeft - left) + 2 * zabs (bTop - top)

/-- Modelled from the spec (§4.5): the refills value priority — extracted
refills text (present meaning truthy, as the source's `if refills_text:`
tests) first, then `"0"` for loading, then `"12 or 0"` for
maintenance/maintenance-increase, then the lookup-table fallback. -/
def specRefillsPriority (c : Combination) : String :=
  match pyTruthy c.refills_text with
  | some r => r
  | none =>
    if c.dose_type = "loading" then "0"
    else if c.dose_type = "maintenance" ∨ c.dose_type = "maintenance_increase" then "12 or 0"
    else ((resolveDosingInfo c).map (·.refills)).getD "12"

/-- Modelled from the spec (§4.6): the claimed routing precedence, as
(validation status, action). -/
def specRouting (patientValid prescriberValid prescriptionValid attestationValid : Bool) :
    String × String :=
  if ¬patientValid then ("failed", "manual_review")
  else if ¬prescriberValid then ("partial", "create_patient_only")
  else if ¬prescriptionValid then ("partial", "create_patient_only")
  else if ¬attestationValid then ("partial", "manual_review")
  else ("complete", "create_full_profile")

/-! ## Concrete instances used by counterexamples and witnesses -/

/-- The `(patient_type, dosage)` key of a classified checkbox, as used by the
grouping step. -/
def keyOf (cb : CheckboxInfo) : String × String :=
  (cb.patient_type.getD "", cb.dosage.getD "")

/-- A same-page LINE block whose vertical offset to the probe position below
is 25 and horizontal offset 50 (combined distance 50 + 2·25 = 100). -/
def proximityBlockA : Block := ⟨"A", "LINE", 1, 525, 150, "lineA"⟩

/-- A same-page LINE block whose vertical offset to the probe position below
is 0 and horizontal offset 60 (combined distance 60). -/
def proximityBlockB : Block := ⟨"B", "LINE", 1, 500, 160, "lineB"⟩

/-- A device-checkbox row label. -/
def wLine1 : Block := ⟨"L1", "LINE", 1, 500, 120, "sensoready® pen (1x150mg/ml)"⟩

/-- A dosing-checkbox row label on the same row. -/
def wLine2 : Block := ⟨"L2", "LINE", 1, 500, 520, "loading dose: inject 150 mg subcutaneously"⟩

/-- A selected device checkbox on the left of the row. -/
def wCb1 : Block := ⟨"CB1", "SELECTION_ELEMENT", 1, 500, 100, ""⟩

/-- A selected dosing checkbox in the middle of the row. -/
def wCb2 : Block := ⟨"CB2", "SELECTION_ELEMENT", 1, 500, 500, ""⟩

/-- The block list of the one-row witness document. -/
def wBlocks : List Block := [wLine1, wLine2, wCb1, wCb2]

/-- Both checkboxes of the witness document are selected. -/
def wCheckboxes : List (String × Bool) := [("CB1", true), ("CB2", true)]

/-- The single combination the witness document produces. -/
def wCombination : Combination :=
  { dosage := "150mg", patient_type := "adult", form := "sensoready_pen",
    dose_type := "loading" }

/-- A minimal classified device checkbox for the cross-product witness. -/
def wDeviceCb : CheckboxInfo :=
  ⟨"D", 500, 100, "", "", some "device", some "150mg", some "adult", some "sensoready_pen", none, none⟩

/-- A minimal classified dosing checkbox for the cross-product witness. -/
def wDosingCb : CheckboxInfo :=
  ⟨"G", 500, 500, "", "", some "dosing", some "150mg", some "adult", none, some "loading", none⟩

/-- The table row used by the ambiguous-refills counterexample: the generic
"12 refills" phrase with no parseable digit after "or". -/
def ambiguousRefillsRow : List String :=
  ["COSENTYX 150 mg Maintenance", "12 refills, or ____ refills"]

/-- The SELECTED form field used by the patient-type counterexample: a
pediatric-marked 300 mg field. -/
def pediatric300FormField : String × FormValue :=
  ("pediatric wt<50 cosentyx 300 mg prefilled syringe loading dose", .str "SELECTED")

/-! ## Claim C7: routing precedence -/

/-- C7: the routing decision is a deterministic function of the four validity
flags with precedence patient > prescriber > prescription > attestation:
patient invalid gives failed/manual_review; else prescriber invalid gives
partial/create_patient_only; else prescription invalid gives
partial/create_patient_only; else attestation invalid gives
partial/manual_review with the three creation flags still true and a review
reason mentioning attestation; else complete/create_full_profile. -/
theorem routing_matches_spec_precedence
    (patientValid prescriberValid prescriptionValid attestationValid : Bool) :
    ((determineRouting patientValid prescriberValid prescriptionValid attestationValid).2,
     (determineRouting patientValid prescriberValid prescriptionValid attestationValid).1.action)
      = specRouting patientValid prescriberValid prescriptionValid attestationValid
    ∧ (patientValid = true → prescriberValid = true → prescriptionValid = true →
       attestationValid = false →
        (determineRouting patientValid prescriberValid prescriptionValid attestationValid).1.create_patient_profile = true
        ∧ (determineRouting patientValid prescriberValid prescriptionValid attestationValid).1.create_prescriber_profile = true
        ∧ (determineRouting patientValid prescriberValid prescriptionValid attestationValid).1.create_prescription = true
        ∧ sContains (((determineRouting patientValid prescriberValid prescriptionValid attestationValid).1.review_reason).getD "") "attestation" = true) := by
  cases patientValid <;> cases prescriberValid <;> cases prescriptionValid <;>
    cases attestationValid <;> exact ⟨by decide, by decide⟩

/-- Witness for C7 at the attestation-missing corner. -/
theorem routing_matches_spec_precedence_witness :
    (determineRouting true true true false).1.create_patient_profile = true
    ∧ (determineRouting true true true false).1.create_prescriber_profile = true
    ∧ (determineRouting true true true false).1.create_prescription = true
    ∧ sContains (((determineRouting true true true false).1.review_reason).getD "") "attestation" = true :=
  (routing_matches_spec_precedence true true true false).2 rfl rfl rfl rfl

/-! ## Claim C8: refills priority -/

/-- C8: the refills value of every built prescription follows the priority
extracted refills text > "0" for loading > "12 or 0" for
maintenance/maintenance-increase > lookup-table fallback. -/
theorem refills_priority_matches_spec (c : Combination) :
    (createPrescription c).refills.value = some (specRefillsPriority c) := by
  simp [createPrescription, refillsValueOf, specRefillsPriority]

/-! ## Claim C9: classifier failure defaults -/

/-- C9: the document classifier returns ("other", 0.0) whenever the external
call raises or the service response cannot be parsed (no brace-delimited
slice, a JSON decode error, or a non-object JSON value); it is a total
function of the two collaborator outcomes, so it never raises. -/
theorem classifier_defaults_on_failure (invoke : Option String)
    (loads : String → JsonOutcome) :
    (invoke = none → classifyDocument invoke loads = ("other", 0))
    ∧ (∀ r, invoke = some r → braceSlice r = none →
        classifyDocument invoke loads = ("other", 0))
    ∧ (∀ r s, invoke = some r → braceSlice r = some s →
        (loads s = .decodeError ∨ loads s = .nonObj) →
        classifyDocument invoke loads = ("other", 0)) := by
  refine ⟨fun h => by subst h; rfl, fun r h hb => ?_, fun r s h hb hl => ?_⟩
  · subst h
    simp [classifyDocument, parseClassificationResponse, hb]
  · subst h
    rcases hl with hl | hl <;> simp [classifyDocument, parseClassificationResponse, hb, hl]

/-- Witness for C9: a failing external call yields ("other", 0.0). -/
theorem classifier_defaults_on_failure_witness :
    classifyDocument none (fun _ => JsonOutcome.decodeError) = ("other", 0) :=
  (classifier_defaults_on_failure none (fun _ => JsonOutcome.decodeError)).1 rfl

/-! ## Claim C10: the extractor always yields a valid prescription -/

/-- The strategy chain never returns an empty combination list. -/
theorem detectCheckedCombinations_ne_nil (forms : List (String × FormValue))
    (rawText : String) (checkboxes : List (String × Bool)) (blocks : List Block)
    (tables : List (List (List String))) :
    detectCheckedCombinations forms rawText checkboxes blocks tables ≠ [] := by
  have key : ∀ l : List Combination, (if l.isEmpty = true then [defaultCombination] else l) ≠ [] := by
    intro l; cases l <;> simp
  unfold detectCheckedCombinations
  exact key _

/-- Every prescription built by `_create_prescription` has all eight fields
marked validated. -/
theorem createPrescription_all_validated (c : Combination) :
    (createPrescription c).product.validated = true
    ∧ (createPrescription c).dosage.validated = true
    ∧ (createPrescription c).form.validated = true
    ∧ (createPrescription c).dose_type.validated = true
    ∧ (createPrescription c).patient_type.validated = true
    ∧ (createPrescription c).quantity.validated = true
    ∧ (createPrescription c).sig.validated = true
    ∧ (createPrescription c).refills.validated = true := by
  simp [createPrescription]

/-- C10: every prescription the builder constructs has all eight fields
validated, hence `is_valid`; combined with the default-combination fallback,
the container `extract` returns always has at least one valid member, so its
`is_valid` holds for every input and the "no prescription valid" routing
branch is unreachable through this extractor. -/
theorem extract_always_valid :
    (∀ c : Combination, (createPrescription c).is_valid = true)
    ∧ (∀ td : TextractData, (extract td).is_valid = true) := by
  constructor
  · intro c
    simp [createPrescription, SinglePrescription.is_valid]
  · intro td
    unfold extract PrescriptionInfo.is_valid
    cases h : detectCheckedCombinations td.forms td.raw_text td.checkboxes td.blocks td.tables with
    | nil => exact absurd h (detectCheckedCombinations_ne_nil _ _ _ _ _)
    | cons c cs =>
      simp [h, List.any_cons, createPrescription, SinglePrescription.is_valid]

/-! ## Claim C6: the hardcoded default combination -/

/-- C6: when the checkbox, form-field and raw-text strategies all yield zero
combinations, the detector emits exactly the one default combination
(150 mg, adult, Sensoready pen, maintenance), and extraction therefore
produces exactly one prescription record. -/
theorem default_combination_fallback (td : TextractData)
    (h1 : detectFromCheckboxes td.checkboxes td.blocks td.tables = [])
    (h2 : detectFromForms td.forms = [])
    (h3 : detectFromRawText td.raw_text = []) :
    detectCheckedCombinations td.forms td.raw_text td.checkboxes td.blocks td.tables
      = [defaultCombination]
    ∧ (extract td).prescriptions = [createPrescription defaultCombination] := by
  have hd : detectCheckedCombinations td.forms td.raw_text td.checkboxes td.blocks td.tables
      = [defaultCombination] := by
    unfold detectCheckedCombinations
    simp [h1, h2, h3]
  exact ⟨hd, by simp [extract, hd]⟩

/-- Witness for C6: the empty document layout. -/
theorem default_combination_fallback_witness :
    detectCheckedCombinations ([] : List (String × FormValue)) "" [] [] [] = [defaultCombination]
    ∧ (extract {}).prescriptions = [createPrescription defaultCombination] :=
  default_combination_fallback {} (by decide) (by decide) (by decide)

/-! ## Claim C5: the devices × dosings cross-product -/

/-- C5: a group with N device checkboxes and M dosing checkboxes (N, M ≥ 1)
yields exactly N×M combinations; a group missing devices or dosings yields
zero combinations (it is skipped, not an error). -/
theorem cross_product_count (patientType dosage : String) (g : CbGroup)
    (refillsData : List RefillsEntry) :
    (g.devices ≠ [] → g.dosings ≠ [] →
      (buildCombosForGroup patientType dosage g refillsData).length
        = g.devices.length * g.dosings.length)
    ∧ ((g.devices = [] ∨ g.dosings = []) →
      buildCombosForGroup patientType dosage g refillsData = []) := by
  constructor
  · intro hdev hdos
    have hlen : ∀ ds : List CheckboxInfo,
        (ds.flatMap fun device => g.dosings.map fun dosing =>
          ({ dosage := dosage, patient_type := patientType,
             form := device.form.getD "", dose_type := dosing.dose_type.getD "",
             refills_text := pyTruthy (matchRefills refillsData patientType dosage dosing.dose_type) } : Combination)).length
          = ds.length * g.dosings.length := by
      intro ds
      induction ds with
      | nil => simp
      | cons d t ih => simp [ih]; ring
    unfold buildCombosForGroup
    rw [if_neg (by simp [hdev, hdos])]
    exact hlen g.devices
  · intro h
    unfold buildCombosForGroup
    rw [if_pos (by rcases h with h | h <;> simp [h])]

/-- Witness for C5: a one-device one-dosing group yields exactly one
combination, and a group without devices yields none. -/
theorem cross_product_count_witness :
    (buildCombosForGroup "adult" "150mg" ⟨[wDeviceCb], [wDosingCb]⟩ []).length = 1 * 1
    ∧ buildCombosForGroup "adult" "150mg" ⟨[], [wDosingCb]⟩ [] = [] :=
  ⟨(cross_product_count "adult" "150mg" ⟨[wDeviceCb], [wDosingCb]⟩ []).1
      (by decide) (by decide),
   (cross_product_count "adult" "150mg" ⟨[], [wDosingCb]⟩ []).2 (Or.inl rfl)⟩

/-! ## Claim C1: the quantity formula (corrected) -/

/-- Counterexample to C1 as stated: for the table entry Pediatric 150 mg
Syringe + Maintenance, the built prescription's quantity is "12", while the
spec's formula `doses_per_cycle × units_per_dose` gives 1 × 1 = 1. -/
theorem quantity_formula_counterexample :
    (createPrescription
        { dosage := "150mg", patient_type := "pediatric", form := "syringe",
          dose_type := "maintenance" }).quantity.value = some "12"
    ∧ specQuantity "150mg" "syringe" "maintenance" = 1
    ∧ ("12" : String) ≠ "1" := by decide

/-- C1 (amended): for every key present in the dosing lookup table, the
quantity assigned to the resulting SinglePrescription equals the table's
documented value: `4 × units_per_dose` for loading entries (so the spec's
formula holds there, e.g. Adult 300 mg UnoReady + Loading ⇒ 4), 12 for
maintenance entries except Adult 300 mg Syringe (24), and 24 for
maintenance-increase entries. -/
theorem quantity_matches_table (k : String × String × String × String)
    (hk : k ∈ dosingTableKeys) :
    (createPrescription
        { dosage := k.1, patient_type := k.2.1, form := k.2.2.1,
          dose_type := k.2.2.2 }).quantity.value
      = some (toString (amendedQuantity k.1 k.2.2.1 k.2.2.2)) := by
  fin_cases hk <;> decide

/-- Witness for C1 (amended) at Adult 300 mg UnoReady + Loading, where the
spec's original formula also gives 4. -/
theorem quantity_matches_table_witness :
    (createPrescription
        { dosage := "300mg", patient_type := "adult", form := "unoready_pen",
          dose_type := "loading" }).quantity.value
      = some (toString (amendedQuantity "300mg" "unoready_pen" "loading")) :=
  quantity_matches_table ("300mg", "adult", "unoready_pen", "loading") (by decide)

/-! ## Claim C2: the ambiguous-refills sentinel (corrected) -/

/-- Counterexample to C2 as stated: a table row carrying the generic
"12 refills" phrase with no parseable digit after "or" is recorded with
refills "12 or 0" — the numeric default — not the claimed sentinel
"12 or Unknown". -/
theorem ambiguous_refills_counterexample :
    (processRow 0 1 none ambiguousRefillsRow).map (·.refills) = some "12 or 0"
    ∧ ("12 or 0" : String) ≠ "12 or Unknown" := by decide

/-- C2 (amended): whenever the refills table scan finds a row containing the
generic "12 refills" phrase (without "n/a") and the digit pattern
`12 refills, or N refills` does not match, the recorded refills value is the
numeric default "12 or 0", never the sentinel "12 or Unknown". -/
theorem ambiguous_refills_default (tableIdx rowIdx : Nat) (tpt : Option String)
    (row : List String)
    (hgen : sContains (sLower (sJoin " " row)) "12 refills" = true)
    (hna : sContains (sLower (sJoin " " row)) "n/a" = false)
    (hnod : search12Refills (sLower (sJoin " " row)) = none) :
    (processRow tableIdx rowIdx tpt row).map (·.refills) = some "12 or 0" := by
  simp [processRow, hnod, hgen, hna]

/-- Witness for C2 (amended) on the concrete ambiguous row. -/
theorem ambiguous_refills_default_witness :
    (processRow 0 1 none ambiguousRefillsRow).map (·.refills) = some "12 or 0" :=
  ambiguous_refills_default 0 1 none ambiguousRefillsRow (by decide) (by decide) (by decide)

/-! ## Claim C3: the proximity resolver's sort metric (corrected) -/

/-- Counterexample to C3 as stated: for a checkbox at (page 1, top 500,
left 100), the resolver returns lineA (combined distance 50 + 2·25 = 100)
before lineB (combined distance 60 + 2·0 = 60), so the nearby view is not
sorted by ascending combined distance `horizontal + 2 × vertical`; the code
sorts by the horizontal offset alone (50 < 60). -/
theorem proximity_sort_counterexample :
    ((collectNearby [proximityBlockA, proximityBlockB] 1 500 100).1.map (·.text))
      = ["lineA", "lineB"]
    ∧ specCombinedDistance 500 100 proximityBlockA.top proximityBlockA.left = 100
    ∧ specCombinedDistance 500 100 proximityBlockB.top proximityBlockB.left = 60 := by
  decide

/-- C3 (amended): for every checkbox position, the resolver returns exactly
the same-page text lines within the vertical tolerance band — 30 thousandths
(0.03) for the nearby view and 20 thousandths (0.02) for the same-row view —
sorted by ascending recorded distance, where the recorded distance is the
horizontal offset alone (the vertical offset is used only for the tolerance
bands). -/
theorem proximity_views_sorted_by_horizontal (blocks : List Block) (page top left : ℤ) :
    (∀ r, r ∈ (collectNearby blocks page top left).1 ↔
       ∃ b, b ∈ blocks ∧ b.blockType = "LINE" ∧ b.page = page
         ∧ zabs (b.top - top) < 30
         ∧ r = NearbyText.mk b.text (zabs (b.left - left)) b.left)
    ∧ (∀ r, r ∈ (collectNearby blocks page top left).2 ↔
       ∃ b, b ∈ blocks ∧ b.blockType = "LINE" ∧ b.page = page
         ∧ zabs (b.top - top) < 20
         ∧ r = NearbyText.mk b.text (zabs (b.left - left)) b.left)
    ∧ (collectNearby blocks page top left).1.Pairwise
        (fun a b => a.distance ≤ b.distance)
    ∧ (collectNearby blocks page top left).2.Pairwise
        (fun a b => a.distance ≤ b.distance) := by
  refine ⟨fun r => ?_, fun r => ?_, ?_, ?_⟩
  · simp only [collectNearby, mem_sortByKey, List.mem_map, List.mem_filter,
      decide_eq_true_eq]
    constructor
    · rintro ⟨b, ⟨⟨hb, hbt, hpg⟩, htol⟩, rfl⟩
      exact ⟨b, hb, hbt, hpg, htol, rfl⟩
    · rintro ⟨b, hb, hbt, hpg, htol, rfl⟩
      exact ⟨b, ⟨⟨hb, hbt, hpg⟩, htol⟩, rfl⟩
  · simp only [collectNearby, mem_sortByKey, List.mem_map, List.mem_filter,
      decide_eq_true_eq]
    constructor
    · rintro ⟨b, ⟨⟨hb, hbt, hpg⟩, htol⟩, rfl⟩
      exact ⟨b, hb, hbt, hpg, htol, rfl⟩
    · rintro ⟨b, hb, hbt, hpg, htol, rfl⟩
      exact ⟨b, ⟨⟨hb, hbt, hpg⟩, htol⟩, rfl⟩
  · exact sortByKey_sorted _ _
  · exact sortByKey_sorted _ _

/-! ## Claim C4: the dosage-based patient-type override (corrected) -/

/-- Counterexample to C4 as stated: with no checkboxes, the pipeline falls
back to the form-field strategy, which keeps the keyword-derived patient type;
a SELECTED pediatric-marked 300 mg field yields a combination with dosage
300mg and patientType pediatric, not adult. -/
theorem dosage_override_counterexample :
    detectCheckedCombinations [pediatric300FormField] "" [] [] []
      = [{ dosage := "300mg", patient_type := "pediatric", form := "syringe",
           dose_type := "loading" }]
    ∧ ("pediatric" : String) ≠ "adult" := by decide

/-- The final assembly copies the dosage and the refined patient type into the
classified record. -/
theorem finishClassify_fields (cbId : String) (cbTop cbLeft : ℤ)
    (context contextOriginal : String) (dosage : Option String) (patientType : String)
    (triple : Option String × Option String × Option String) (info : CheckboxInfo)
    (h : finishClassify cbId cbTop cbLeft context contextOriginal dosage patientType triple
          = some info) :
    info.dosage = dosage ∧ info.patient_type = some patientType := by
  obtain ⟨cbType, form, doseType⟩ := triple
  simp only [finishClassify] at h
  split at h
  · split at h
    · cases h; exact ⟨rfl, rfl⟩
    · split at h
      · cases h; exact ⟨rfl, rfl⟩
      · cases h
  · cases h

/-- The dosage-based override: 75 mg forces pediatric, 300 mg forces adult. -/
theorem refinePatientType_inv (dosage : Option String) (pt0 : String) :
    (dosage = some "75mg" → refinePatientType dosage pt0 = "pediatric")
    ∧ (dosage = some "300mg" → refinePatientType dosage pt0 = "adult") :=
  ⟨fun h => by subst h; rfl, fun h => by subst h; rfl⟩

/-- Every checkbox the classifier emits satisfies the dosage-based
patient-type override. -/
theorem classifyCheckbox_inv (blocks : List Block) (cbId : String)
    (cbPage cbTop cbLeft : ℤ) (info : CheckboxInfo)
    (h : classifyCheckbox blocks cbId cbPage cbTop cbLeft = some info) :
    (info.dosage = some "75mg" → info.patient_type = some "pediatric")
    ∧ (info.dosage = some "300mg" → info.patient_type = some "adult") := by
  simp only [classifyCheckbox] at h
  split at h
  · cases h
  · obtain ⟨hd, hpt⟩ := finishClassify_fields _ _ _ _ _ _ _ _ _ h
    constructor
    · intro h75
      rw [hpt]
      exact congrArg some ((refinePatientType_inv _ _).1 (hd ▸ h75))
    · intro h300
      rw [hpt]
      exact congrArg some ((refinePatientType_inv _ _).2 (hd ▸ h300))

/-- The key of an entry produced by `addToGroups` is an existing key of the
accumulator or the new checkbox's key. -/
theorem addToGroups_key_mem (acc : List ((String × String) × CbGroup))
    (cb : CheckboxInfo) (x : (String × String) × CbGroup)
    (hx : x ∈ addToGroups acc cb) :
    x.1 ∈ acc.map (·.1) ∨ x.1 = keyOf cb := by
  simp only [addToGroups] at hx
  split at hx
  · obtain ⟨a, ha, rfl⟩ := List.mem_map.mp hx
    left
    have : (if a.1 = (cb.patient_type.getD "", cb.dosage.getD "")
        then (a.1, if cb.cbType = some "device"
                   then { a.2 with devices := a.2.devices ++ [cb] }
                   else if cb.cbType = some "dosing"
                   then { a.2 with dosings := a.2.dosings ++ [cb] }
                   else a.2)
        else a).1 = a.1 := by
      split <;> rfl
    rw [this]
    exact List.mem_map.mpr ⟨a, ha, rfl⟩
  · rcases List.mem_append.mp hx with hx | hx
    · exact Or.inl (List.mem_map.mpr ⟨x, hx, rfl⟩)
    · simp only [List.mem_singleton] at hx
      subst hx
      exact Or.inr rfl

/-- Any predicate on keys that holds for the accumulator and for every
checkbox's key holds for every key of the folded group map. -/
theorem foldl_addToGroups_keys (C : String × String → Prop) :
    ∀ (data : List CheckboxInfo) (acc : List ((String × String) × CbGroup)),
      (∀ e ∈ acc, C e.1) → (∀ cb ∈ data, C (keyOf cb)) →
      ∀ e ∈ data.foldl addToGroups acc, C e.1 := by
  intro data
  induction data with
  | nil => exact fun acc hacc _ e he => hacc e he
  | cons cb t ih =>
    intro acc hacc hdata e he
    refine ih (addToGroups acc cb) ?_ (fun x hx => hdata x (List.mem_cons_of_mem _ hx)) e he
    intro x hx
    rcases addToGroups_key_mem acc cb x hx with hk | hk
    · obtain ⟨a, ha, hax⟩ := List.mem_map.mp hk
      exact hax ▸ hacc a ha
    · exact hk ▸ hdata cb (List.mem_cons_self _ _)

/-- Combinations built for a group carry the group key's patient type and
dosage. -/
theorem buildCombosForGroup_fields (patientType dosage : String) (g : CbGroup)
    (refillsData : List RefillsEntry) (c : Combination)
    (hc : c ∈ buildCombosForGroup patientType dosage g refillsData) :
    c.patient_type = patientType ∧ c.dosage = dosage := by
  simp only [buildCombosForGroup] at hc
  split at hc
  · cases hc
  · obtain ⟨dev, _, hc⟩ := List.mem_flatMap.mp hc
    obtain ⟨dos, _, rfl⟩ := List.mem_map.mp hc
    exact ⟨rfl, rfl⟩

/-- Every combination of the grouped build comes from some group. -/
theorem buildAllCombos_mem (groups : List ((String × String) × CbGroup))
    (refillsData : List RefillsEntry) (c : Combination)
    (hc : c ∈ buildAllCombos groups refillsData) :
    ∃ e ∈ groups, c ∈ buildCombosForGroup e.1.1 e.1.2 e.2 refillsData :=
  List.mem_flatMap.mp hc

/-- C4 (amended): every combination emitted by the checkbox-detection
strategy satisfies the dosage-based override — dosage 75mg forces
patientType pediatric and dosage 300mg forces patientType adult, regardless
of surrounding context keywords (the form-field and raw-text fallback
strategies keep the keyword-derived patient type instead). -/
theorem dosage_patient_type_override (checkboxes : List (String × Bool))
    (blocks : List Block) (tables : List (List (List String))) :
    ∀ c ∈ detectFromCheckboxes checkboxes blocks tables,
      (c.dosage = "75mg" → c.patient_type = "pediatric")
      ∧ (c.dosage = "300mg" → c.patient_type = "adult") := by
  intro c hc
  simp only [detectFromCheckboxes] at hc
  split at hc
  · cases hc
  · obtain ⟨e, he, hce⟩ := buildAllCombos_mem _ _ _ hc
    obtain ⟨hpt, hd⟩ := buildCombosForGroup_fields _ _ _ _ _ hce
    have hkey : (e.1.2 = "75mg" → e.1.1 = "pediatric")
        ∧ (e.1.2 = "300mg" → e.1.1 = "adult") := by
      refine foldl_addToGroups_keys
        (fun k => (k.2 = "75mg" → k.1 = "pediatric") ∧ (k.2 = "300mg" → k.1 = "adult"))
        _ [] (by simp) ?_ e he
      intro cb hcb
      obtain ⟨⟨cid, sel⟩, _, hf⟩ := List.mem_filterMap.mp hcb
      dsimp only at hf
      split at hf
      · cases hf
      · split at hf
        · cases hf
        · obtain ⟨h75, h300⟩ := classifyCheckbox_inv _ _ _ _ _ _ hf
          show (cb.dosage.getD "" = "75mg" → cb.patient_type.getD "" = "pediatric")
            ∧ (cb.dosage.getD "" = "300mg" → cb.patient_type.getD "" = "adult")
          constructor
          · intro hk
            have hds : cb.dosage = some "75mg" := by
              cases hdos : cb.dosage with
              | none => rw [hdos, Option.getD_none] at hk; exact absurd hk (by decide)
              | some v => rw [hdos, Option.getD_some] at hk; rw [hk]
            rw [h75 hds]
            rfl
          · intro hk
            have hds : cb.dosage = some "300mg" := by
              cases hdos : cb.dosage with
              | none => rw [hdos, Option.getD_none] at hk; exact absurd hk (by decide)
              | some v => rw [hdos, Option.getD_some] at hk; rw [hk]
            rw [h300 hds]
            rfl
    rw [hpt, hd]
    exact hkey

/-- Witness for C4 (amended): the one-row witness document's combination. -/
theorem dosage_patient_type_override_witness :
    (wCombination.dosage = "75mg" → wCombination.patient_type = "pediatric")
    ∧ (wCombination.dosage = "300mg" → wCombination.patient_type = "adult") :=
  dosage_patient_type_override wCheckboxes wBlocks [] wCombination (by decide)
